import Mathlib

/-!
Shallow embedding of `src/customs_data_fetcher/main.py`.

The module fetches a paginated HTTP collection and writes the records to a
tab-separated file.  We embed the pure decision logic of `fetch_page`,
`fetch_all_pages` and the orchestration loop of `fetch_and_save_data`:

* HTTP transport is abstracted as an environment mapping a batch index and a
  page number to the observed transport outcome (`Transport`), so that
  time-varying endpoint behaviour (for instance, a 429 answered once and then
  success) is expressible.
* `asyncio` concurrency only schedules the per-page requests; the values the
  Python code computes are a deterministic function of the per-page responses,
  which is what we model.  Delays (`asyncio.sleep`) do not affect any computed
  value and are not modelled; wall-clock time only feeds the dead variable
  `current_rps`, which no live code consumes, so `start_time` is likewise
  elided (it is reset exactly where `total_requests` is reset).
* Python floats used for `request_delay` are modelled as rationals.
* `all_data.extend(None)` raises `TypeError` in Python; the loop body is
  therefore embedded in `Except RunError`.
* The `while True` loop is given explicit fuel: `run env fuel s` returns
  `.ok none` when the loop is still running after `fuel` iterations,
  `.ok (some s)` when it reached its `break`, and `.error e` when an
  uncaught exception aborted the run.
-/

namespace CustomsDataFetcher

/-- A fetched record.  The code treats records as opaque units (rows of the
parsed JSON `items` array); we model them as natural-number tags. -/
abbrev Record := Nat

/-- `SAVE_BATCH_SIZE = 1000` from `main.py`. -/
def SAVE_BATCH_SIZE : Nat := 1000

/-- `INITIAL_CONCURRENT_REQUESTS = 10` from `main.py`. -/
def INITIAL_CONCURRENT_REQUESTS : Nat := 10

/-- `MAX_CONCURRENT_REQUESTS = 200` from `main.py`. -/
def MAX_CONCURRENT_REQUESTS : Nat := 200

/-- `RATE_LIMIT_WINDOW_SEC = 180` from `main.py`. -/
def RATE_LIMIT_WINDOW_SEC : Nat := 180

/-- An HTTP response as observed by `fetch_page`: its status code and the
result of `(await response.json()).get('items', [])` — `none` when reading or
parsing the body raises, `some items` otherwise (a missing `items` key already
defaulted to `[]`). -/
structure HttpResp where
  status : Nat
  items : Option (List Record)
deriving DecidableEq

/-- Outcome of one `session.get` round trip: either a response, or the call
itself raised (network error). -/
inductive Transport where
  | ok (r : HttpResp)
  | err
deriving DecidableEq

/-- Embedding of `fetch_page` (main.py lines 21-36).  Returns the triple
`(page, items-or-None, is_successful)` exactly as the Python function does:

* status 429 ⇒ `(page, None, False)`;
* otherwise, `response.raise_for_status()` is called when status ≠ 200 and
  raises iff status ≥ 400; the exception is caught by the `except` arm and
  `(page, None, True)` is returned;
* a body that fails to parse also lands in the `except` arm:
  `(page, None, True)`;
* otherwise `(page, items, True)`. -/
def fetch_page (page : Nat) (t : Transport) : Nat × Option (List Record) × Bool :=
  match t with
  | .err => (page, none, true)
  | .ok r =>
    if r.status = 429 then
      (page, none, false)
    else if r.status ≠ 200 ∧ 400 ≤ r.status then
      (page, none, true)
    else
      match r.items with
      | none => (page, none, true)
      | some items => (page, some items, true)

/-- Embedding of `fetch_all_pages` (main.py lines 39-53): one `fetch_page`
per page in `range(start_page, end_page + 1)`.  `envk` gives the transport
outcome each page observes during this batch; the semaphore and gather only
schedule the calls and do not change the collected values. -/
def fetch_all_pages (envk : Nat → Transport) (start_page end_page : Nat) :
    List (Nat × Option (List Record) × Bool) :=
  (List.range' start_page (end_page + 1 - start_page)).map fun p =>
    fetch_page p (envk p)

/-- The one uncaught exception the orchestration loop can raise:
`all_data.extend(None)` is a `TypeError` in Python. -/
inductive RunError where
  | typeError
deriving DecidableEq

/-- Embedding of the `for task in tasks:` loop (main.py lines 83-89).
Walks the batch results in order; on the first unsuccessful task sets
`rate_limit_reached` and breaks; for successful tasks extends `all_data`
with the task's data — raising `TypeError` when that data is `None` — and
increments `page`.  Returns `(all_data, page, rate_limit_reached)`. -/
def processTasks :
    List (Nat × Option (List Record) × Bool) → List Record → Nat →
      Except RunError (List Record × Nat × Bool)
  | [], all_data, page => .ok (all_data, page, false)
  | (_, data, is_successful) :: rest, all_data, page =>
    if is_successful then
      match data with
      | none => .error .typeError
      | some items => processTasks rest (all_data ++ items) (page + 1)
    else
      .ok (all_data, page, true)

/-- Embedding of the `request_delay` assignment in the rate-limit branch
(main.py lines 93-97): `min(1 / target_rps, RATE_LIMIT_WINDOW_SEC /
total_requests)` with `target_rps = total_requests / rate_limit_interval`,
i.e. `min(rate_limit_interval / total_requests,
RATE_LIMIT_WINDOW_SEC / total_requests)`. -/
def request_delay_code (rate_limit_interval total_requests : Nat) : ℚ :=
  min ((rate_limit_interval : ℚ) / (total_requests : ℚ))
    ((RATE_LIMIT_WINDOW_SEC : ℚ) / (total_requests : ℚ))

/-- Embedding of the concurrency/interval update in the rate-limit branch
(main.py lines 99-104): the first 429 widens the interval from 60 to 180 and
keeps the concurrency; a later 429 keeps the interval and lowers the
concurrency by 10, floored at `INITIAL_CONCURRENT_REQUESTS`. -/
def adjust_rate_limited (concurrent_requests rate_limit_interval : Nat) :
    Nat × Nat :=
  if rate_limit_interval = 60 then
    (concurrent_requests, 180)
  else
    (max INITIAL_CONCURRENT_REQUESTS (concurrent_requests - 10),
      rate_limit_interval)

/-- Embedding of the concurrency update in the no-rate-limit branch
(main.py lines 111-115): a fully successful batch below the cap raises the
concurrency by 10; otherwise it drops by 1, floored at
`INITIAL_CONCURRENT_REQUESTS`. -/
def adjust_ok (concurrent_requests batch_successful_requests : Nat) : Nat :=
  if batch_successful_requests = concurrent_requests ∧
      concurrent_requests < MAX_CONCURRENT_REQUESTS then
    concurrent_requests + 10
  else
    max INITIAL_CONCURRENT_REQUESTS (concurrent_requests - 1)

/-- One row of the tab-separated output file: the header row, or one data
row per record. -/
inductive Row where
  | header
  | data (r : Record)
deriving DecidableEq

/-- The rows `df.to_csv(buffer, sep='\x09', index=False, header=not
header_written)` produces for a buffer `rows`: a header row first unless one
was already written, then one row per record, in order. -/
def writeRows (header_written : Bool) (rows : List Record) : List Row :=
  (if header_written then [] else [Row.header]) ++ rows.map Row.data

/-- Embedding of the in-loop flush (main.py lines 122-134): when the buffer
holds at least `SAVE_BATCH_SIZE` records it is serialized and appended to the
file (header iff none written yet), the buffer is cleared and
`header_written` set; otherwise nothing happens.  Returns the new
`(all_data, header_written, output)`. -/
def flushIfNeeded (all_data : List Record) (header_written : Bool)
    (output : List Row) : List Record × Bool × List Row :=
  if SAVE_BATCH_SIZE ≤ all_data.length then
    ([], true, output ++ writeRows header_written all_data)
  else
    (all_data, header_written, output)

/-- The mutable state of `fetch_and_save_data`'s `while True` loop, plus the
rows written to the output file so far. -/
structure LoopState where
  concurrent_requests : Nat
  request_delay : ℚ
  page : Nat
  successful_requests : Nat
  total_requests : Nat
  header_written : Bool
  all_data : List Record
  rate_limit_interval : Nat
  output : List Row
deriving DecidableEq

/-- The batch of task results the loop gathers at the top of an iteration:
`fetch_all_pages(session, page, page + concurrent_requests - 1, ...)`. -/
def tasksOf (envk : Nat → Transport) (s : LoopState) :
    List (Nat × Option (List Record) × Bool) :=
  fetch_all_pages envk s.page (s.page + s.concurrent_requests - 1)

/-- One iteration of the `while True` loop of `fetch_and_save_data`
(main.py lines 71-134).  Returns the state after the iteration together with
`true` when the loop continues, `false` when `if not all_data: break` fired;
an uncaught `TypeError` from `all_data.extend(None)` aborts. -/
def loopIter (envk : Nat → Transport) (s : LoopState) :
    Except RunError (LoopState × Bool) :=
  let tasks := tasksOf envk s
  let batch_successful_requests := (tasks.filter fun t => t.2.2).length
  let total_requests := s.total_requests + tasks.length
  let successful_requests := s.successful_requests + batch_successful_requests
  match processTasks tasks s.all_data s.page with
  | .error e => .error e
  | .ok (all_data, page, rate_limit_reached) =>
    let s1 : LoopState :=
      if rate_limit_reached then
        { s with
          request_delay := request_delay_code s.rate_limit_interval total_requests
          concurrent_requests :=
            (adjust_rate_limited s.concurrent_requests s.rate_limit_interval).1
          rate_limit_interval :=
            (adjust_rate_limited s.concurrent_requests s.rate_limit_interval).2
          page := page
          all_data := all_data
          successful_requests := 0
          total_requests := 0 }
      else
        { s with
          concurrent_requests :=
            adjust_ok s.concurrent_requests batch_successful_requests
          page := page
          all_data := all_data
          successful_requests := successful_requests
          total_requests := total_requests }
    if s1.all_data = [] then
      .ok (s1, false)
    else
      let fr := flushIfNeeded s1.all_data s1.header_written s1.output
      .ok ({ s1 with
             all_data := fr.1
             header_written := fr.2.1
             output := fr.2.2 }, true)

/-- The `while True` loop with explicit fuel.  The endpoint environment
`env` maps (batch index, page) to the transport outcome; each iteration
consumes batch index 0 and shifts the environment. `.ok none` means the loop
is still running after `fuel` iterations (it never reached `break`). -/
def run (env : Nat → Nat → Transport) :
    Nat → LoopState → Except RunError (Option LoopState)
  | 0, _ => .ok none
  | fuel + 1, s =>
    match loopIter (env 0) s with
    | .error e => .error e
    | .ok (s', more) =>
      if more then run (fun k => env (k + 1)) fuel s' else .ok (some s')

/-- The loop state at entry to `fetch_and_save_data`'s `while True`
(main.py lines 56-69). -/
def initState : LoopState :=
  { concurrent_requests := INITIAL_CONCURRENT_REQUESTS
    request_delay := 0
    page := 1
    successful_requests := 0
    total_requests := 0
    header_written := false
    all_data := []
    rate_limit_interval := 60
    output := [] }

/-- The post-loop write of the remaining buffer (main.py lines 136-144):
anything still in `all_data` is serialized (header iff still unwritten) and
appended to the file. -/
def finalFlush (s : LoopState) : List Row :=
  if s.all_data = [] then s.output
  else s.output ++ writeRows s.header_written s.all_data

/-- Embedding of `fetch_and_save_data`: run the loop from the initial state,
then flush the remainder.  `.ok none` = still looping after `fuel`
iterations, `.ok (some rows)` = completed with this output file content,
`.error` = aborted by an uncaught exception. -/
def fetch_and_save_data (env : Nat → Nat → Transport) (fuel : Nat) :
    Except RunError (Option (List Row)) :=
  (run env fuel initState).map (Option.map finalFlush)

/-- The loop state after exactly `n` iterations from `s` (`.ok none` when
the loop broke before completing `n` iterations). -/
def iterStates (env : Nat → Nat → Transport) :
    Nat → LoopState → Except RunError (Option LoopState)
  | 0, s => .ok (some s)
  | n + 1, s =>
    match loopIter (env 0) s with
    | .error e => .error e
    | .ok (s', more) =>
      if more then iterStates (fun k => env (k + 1)) n s' else .ok none

/-! ### Concrete endpoint environments for the end-to-end claims -/

/-- Items served by an endpoint holding 3 pages of 2 records each: pages
1..3 carry two records, every later page has an empty `items` list. -/
def pageItems (p : Nat) : List Record :=
  if 1 ≤ p ∧ p ≤ 3 then [10 * p + 1, 10 * p + 2] else []

/-- The 3-pages-of-2-items endpoint, answering 200 on every request. -/
def endpoint3x2 (_k p : Nat) : Transport := .ok ⟨200, some (pageItems p)⟩

/-- The 3-pages-of-2-items endpoint, except page 2 answers 429 during the
first batch and succeeds on every later request. -/
def endpoint429once (k p : Nat) : Transport :=
  if k = 0 ∧ p = 2 then .ok ⟨429, none⟩ else .ok ⟨200, some (pageItems p)⟩

/-- The 3-pages-of-2-items endpoint, except page 2 answers HTTP 500 on every
attempt. -/
def endpoint500page2 (_k p : Nat) : Transport :=
  if p = 2 then .ok ⟨500, none⟩ else .ok ⟨200, some (pageItems p)⟩

/-- The 3-pages-of-2-items endpoint, except page 1 answers HTTP 500 on every
attempt. -/
def endpoint500page1 (_k p : Nat) : Transport :=
  if p = 1 then .ok ⟨500, none⟩ else .ok ⟨200, some (pageItems p)⟩

/-- An endpoint that always answers 200 with an empty `items` list. -/
def endpointEmpty (_k _p : Nat) : Transport := .ok ⟨200, some []⟩

/-- The loop state after the first batch against `endpoint3x2`: pages 1-10
were fetched, the six records of pages 1-3 sit in the buffer, and the fully
successful batch raised the concurrency to 20. -/
def s3x2_1 : LoopState :=
  { concurrent_requests := 20, request_delay := 0, page := 11,
    successful_requests := 10, total_requests := 10, header_written := false,
    all_data := [11, 12, 21, 22, 31, 32], rate_limit_interval := 60,
    output := [] }

/-- The loop state after the first batch against `endpoint429once`: page 2's
429 stopped task processing after page 1, the window was widened to 180s,
the delay recomputed, and the counters reset. -/
def s429_1 : LoopState :=
  { concurrent_requests := 10, request_delay := request_delay_code 60 10,
    page := 2, successful_requests := 0, total_requests := 0,
    header_written := false, all_data := [11, 12],
    rate_limit_interval := 180, output := [] }

/-- The loop state after the second batch against `endpoint429once`: pages
2-11 all succeeded, so the buffer now holds all six records exactly once. -/
def s429_2 : LoopState :=
  { concurrent_requests := 20, request_delay := request_delay_code 60 10,
    page := 12, successful_requests := 10, total_requests := 10,
    header_written := false, all_data := [11, 12, 21, 22, 31, 32],
    rate_limit_interval := 180, output := [] }

/-- The terminal loop state of a run against `endpointEmpty`: the first
batch returns no records, so `if not all_data: break` fires at once. -/
def sEmptyEnd : LoopState :=
  { concurrent_requests := 20, request_delay := 0, page := 11,
    successful_requests := 10, total_requests := 10, header_written := false,
    all_data := [], rate_limit_interval := 60, output := [] }

/-- The concurrency level after `n` completed loop iterations (`none` when
the loop broke or aborted before then). -/
def crAfter (env : Nat → Nat → Transport) (n : Nat) : Option Nat :=
  match iterStates env n initState with
  | .ok (some s) => some s.concurrent_requests
  | _ => none

/-- The `total_requests` window counter after `n` completed loop iterations
(`none` when the loop broke or aborted before then). -/
def totalAfter (env : Nat → Nat → Transport) (n : Nat) : Option Nat :=
  match iterStates env n initState with
  | .ok (some s) => some s.total_requests
  | _ => none

/-! ### Spec-modelled resume logic

The repository's source has no CheckpointStore or PageSource component:
`fetch_and_save_data` unconditionally starts at `page = 1` (see `initState`).
The two definitions below model the missing resume logic from the spec so
the checkpoint claim can be stated. -/

/-- Modelled from the spec: the CheckpointStore/PageSource resume rule —
`resumePage = checkpoint + 1` (or 1 if no checkpoint); absent from the
repository's source, which always starts at page 1. -/
def resumePage : Option Nat → Nat
  | none => 1
  | some k => k + 1

/-- Modelled from the spec: PageSource in bounded mode enumerates
`[resumePage, totalPages]` once; absent from the repository's source. -/
def pageSource (checkpoint : Option Nat) (totalPages : Nat) : List Nat :=
  List.range' (resumePage checkpoint) (totalPages + 1 - resumePage checkpoint)

/-- The delay formula exactly as the spec words it (refinement target for
the claim about `request_delay`): `targetRps = totalRequestsInWindow /
windowLength`; `delaySeconds = min (1 / targetRps)
(windowLength / totalRequestsInWindow)`. -/
def delay_spec (windowLength total : Nat) : ℚ :=
  min (1 / ((total : ℚ) / (windowLength : ℚ)))
    ((windowLength : ℚ) / (total : ℚ))

/-! ### Loop states the `break` can never leave

Once the buffer is non-empty but below `SAVE_BATCH_SIZE` and every remaining
page answers 200 with no items, the buffer can never again become empty, so
`if not all_data: break` never fires and the loop runs forever. -/

/-- A state from which the loop can never reach its `break`: the buffer is
non-empty but below the flush threshold, and the current page is already
past the data of the three-page endpoints. -/
def Stuck (s : LoopState) : Prop :=
  4 ≤ s.page ∧ s.all_data ≠ [] ∧ s.all_data.length < SAVE_BATCH_SIZE

/-- Environments whose pages ≥ 4 always answer 200 with no items. -/
def EmptyHigh (env : Nat → Nat → Transport) : Prop :=
  ∀ k p, 4 ≤ p → env k p = .ok ⟨200, some []⟩

/-- The writer portion of a loop state is well-formed: either nothing has
been written and no header emitted, or the output starts with the single
header row ever emitted. -/
def HeaderOnce (o : List Row) (h : Bool) : Prop :=
  (o = [] ∧ h = false) ∨
    (∃ tl, o = Row.header :: tl ∧ Row.header ∉ tl ∧ h = true)

/-- `HeaderOnce` for the writer fields of a loop state. -/
def WriterInv (s : LoopState) : Prop := HeaderOnce s.output s.header_written

/-! ### Helper lemmas -/

theorem processTasks_emptyItems (ps : List Nat) (d : List Record) (pg : Nat) :
    processTasks (ps.map fun p => (p, some ([] : List Record), true)) d pg =
      .ok (d, pg + ps.length, false) := by
  induction ps generalizing pg with
  | nil => simp [processTasks]
  | cons p rest ih =>
    have h : pg + 1 + rest.length = pg + (rest.length + 1) := by omega
    simp [processTasks, ih, h]

theorem tasksOf_emptyHigh (envk : Nat → Transport) (s : LoopState)
    (h4 : 4 ≤ s.page) (henv : ∀ p, 4 ≤ p → envk p = .ok ⟨200, some []⟩) :
    tasksOf envk s =
      (List.range' s.page s.concurrent_requests).map
        fun p => (p, some ([] : List Record), true) := by
  have hcount : s.page + s.concurrent_requests - 1 + 1 - s.page
      = s.concurrent_requests := by omega
  unfold tasksOf fetch_all_pages
  rw [hcount]
  apply List.map_congr_left
  intro p hp
  have hple : 4 ≤ p := le_trans h4 (List.mem_range'_1.mp hp).1
  rw [henv p hple]
  rfl

theorem loopIter_emptyHigh (envk : Nat → Transport) (s : LoopState)
    (h4 : 4 ≤ s.page) (hne : s.all_data ≠ [])
    (hlt : s.all_data.length < SAVE_BATCH_SIZE)
    (henv : ∀ p, 4 ≤ p → envk p = .ok ⟨200, some []⟩) :
    loopIter envk s =
      .ok ({ s with
             concurrent_requests :=
               adjust_ok s.concurrent_requests s.concurrent_requests
             page := s.page + s.concurrent_requests
             successful_requests :=
               s.successful_requests + s.concurrent_requests
             total_requests := s.total_requests + s.concurrent_requests },
           true) := by
  have ht := tasksOf_emptyHigh envk s h4 henv
  have hproc : processTasks (tasksOf envk s) s.all_data s.page =
      .ok (s.all_data, s.page + s.concurrent_requests, false) := by
    rw [ht, processTasks_emptyItems, List.length_range']
  have hbsr : ((tasksOf envk s).filter fun t => t.2.2).length
      = s.concurrent_requests := by
    rw [ht, List.filter_eq_self.mpr, List.length_map, List.length_range']
    intro a ha
    simp only [List.mem_map] at ha
    obtain ⟨p, _, rfl⟩ := ha
    rfl
  have hlen : (tasksOf envk s).length = s.concurrent_requests := by
    rw [ht, List.length_map, List.length_range']
  have hflush : flushIfNeeded s.all_data s.header_written s.output
      = (s.all_data, s.header_written, s.output) := by
    rw [flushIfNeeded, if_neg (by omega)]
  simp only [loopIter, hproc, hbsr, hlen, Bool.false_eq_true, if_false,
    hflush, if_neg hne]

theorem run_stuck : ∀ (fuel : Nat) (env : Nat → Nat → Transport),
    EmptyHigh env → ∀ s : LoopState, Stuck s → run env fuel s = .ok none := by
  intro fuel
  induction fuel with
  | zero => intro env _ s _; rfl
  | succ n ih =>
    intro env henv s hs
    obtain ⟨h4, hne, hlt⟩ := hs
    have hiter := loopIter_emptyHigh (env 0) s h4 hne hlt fun p hp =>
      henv 0 p hp
    have hstuck : Stuck { s with
        concurrent_requests :=
          adjust_ok s.concurrent_requests s.concurrent_requests
        page := s.page + s.concurrent_requests
        successful_requests := s.successful_requests + s.concurrent_requests
        total_requests := s.total_requests + s.concurrent_requests } :=
      ⟨le_trans h4 (Nat.le_add_right ..), hne, hlt⟩
    show run env (n + 1) s = .ok none
    simp only [run, hiter, if_true]
    exact ih (fun k => env (k + 1)) (fun k p hp => henv (k + 1) p hp) _ hstuck

theorem flush_headerOnce (d : List Record) (h : Bool) (o : List Row)
    (hinv : HeaderOnce o h) :
    HeaderOnce (flushIfNeeded d h o).2.2 (flushIfNeeded d h o).2.1 := by
  rw [flushIfNeeded]
  split
  · rcases hinv with ⟨ho, hh⟩ | ⟨tl, ho, htl, hh⟩
    · subst ho; subst hh
      exact Or.inr ⟨d.map Row.data, by simp [writeRows], by simp, rfl⟩
    · subst ho; subst hh
      refine Or.inr ⟨tl ++ d.map Row.data, by simp [writeRows], ?_, rfl⟩
      simp [htl]
  · exact hinv

theorem loopIter_writerInv (envk : Nat → Transport) (s s' : LoopState)
    (more : Bool) (hiter : loopIter envk s = .ok (s', more))
    (hinv : WriterInv s) : WriterInv s' := by
  cases hp : processTasks (tasksOf envk s) s.all_data s.page with
  | error e => simp [loopIter, hp] at hiter
  | ok v =>
    obtain ⟨d, pg, rl⟩ := v
    simp only [loopIter, hp] at hiter
    cases rl with
    | true =>
      simp only [if_true] at hiter
      split at hiter <;>
        · rw [Except.ok.injEq, Prod.mk.injEq] at hiter
          obtain ⟨h1, _⟩ := hiter
          subst h1
          first
            | exact hinv
            | exact flush_headerOnce _ _ _ hinv
    | false =>
      simp only [Bool.false_eq_true, if_false] at hiter
      split at hiter <;>
        · rw [Except.ok.injEq, Prod.mk.injEq] at hiter
          obtain ⟨h1, _⟩ := hiter
          subst h1
          first
            | exact hinv
            | exact flush_headerOnce _ _ _ hinv

theorem run_writerInv : ∀ (fuel : Nat) (env : Nat → Nat → Transport)
    (s s' : LoopState), WriterInv s → run env fuel s = .ok (some s') →
    WriterInv s' := by
  intro fuel
  induction fuel with
  | zero => intro env s s' _ h; simp [run] at h
  | succ n ih =>
    intro env s s' hinv h
    cases hl : loopIter (env 0) s with
    | error e => simp [run, hl] at h
    | ok v =>
      obtain ⟨t, more⟩ := v
      simp only [run, hl] at h
      cases more with
      | true =>
        simp only [if_true] at h
        exact ih _ _ _ (loopIter_writerInv _ _ _ _ hl hinv) h
      | false =>
        simp only [Bool.false_eq_true, if_false, Except.ok.injEq,
          Option.some.injEq] at h
        subst h
        exact loopIter_writerInv _ _ _ _ hl hinv

theorem finalFlush_headerOnce (s : LoopState) (hinv : WriterInv s) :
    finalFlush s = [] ∨
      ∃ tl, finalFlush s = Row.header :: tl ∧ Row.header ∉ tl := by
  rw [finalFlush]
  split
  · rcases hinv with ⟨ho, _⟩ | ⟨tl, ho, htl, _⟩
    · exact Or.inl ho
    · exact Or.inr ⟨tl, ho, htl⟩
  · rcases hinv with ⟨ho, hh⟩ | ⟨tl, ho, htl, hh⟩
    · rw [ho, hh]
      exact Or.inr ⟨s.all_data.map Row.data, by simp [writeRows], by simp⟩
    · rw [ho, hh]
      refine Or.inr ⟨tl ++ s.all_data.map Row.data, by simp [writeRows], ?_⟩
      simp [htl]

/-! ### The claims -/

/-- Claim C1: the spec asserts that against an endpoint with 3 pages of 2
items each and no failures, `fetch_and_save_data` terminates and the output
file holds 1 header row and 6 data rows.  The code violates this: after the
first batch the six records sit in `all_data` forever (six is below
`SAVE_BATCH_SIZE`, so no flush empties the buffer), hence
`if not all_data: break` never fires — for every fuel bound the loop is
still running and nothing has been written to the file. -/
theorem three_page_endpoint_loop_never_terminates (fuel : Nat) :
    run endpoint3x2 fuel initState = .ok none ∧
    fetch_and_save_data endpoint3x2 fuel = .ok none := by
  have hrun : run endpoint3x2 fuel initState = .ok none := by
    cases fuel with
    | zero => rfl
    | succ n =>
      have h1 : loopIter (endpoint3x2 0) initState = .ok (s3x2_1, true) := by
        rfl
      have henv : EmptyHigh fun k => endpoint3x2 (k + 1) := by
        intro k p hp
        show Transport.ok ⟨200, some (pageItems p)⟩ = _
        rw [pageItems, if_neg (by omega)]
      have hstuck : Stuck s3x2_1 :=
        ⟨by norm_num [s3x2_1], by simp [s3x2_1],
          by norm_num [s3x2_1, SAVE_BATCH_SIZE]⟩
      show run endpoint3x2 (n + 1) initState = .ok none
      simp only [run, h1, if_true]
      exact run_stuck n _ henv _ hstuck
  refine ⟨hrun, ?_⟩
  rw [fetch_and_save_data, hrun]
  rfl

/-- Claim C2 (spec-modelled: the repository's source has no CheckpointStore
or PageSource): with an existing checkpoint `K`, every enumerated page
exceeds `K` and the first page requested is `K + 1`; with no checkpoint the
resume page is 1 — which is also where the code's loop actually starts
(`initState.page = 1`). -/
theorem resume_never_fetches_checkpointed_pages (K totalPages : Nat) :
    (∀ p ∈ pageSource (some K) totalPages, K < p) ∧
    (∀ t : Nat, (pageSource (some K) (K + 1 + t)).head? = some (K + 1)) ∧
    resumePage none = 1 ∧ initState.page = 1 := by
  refine ⟨?_, ?_, rfl, rfl⟩
  · intro p hp
    have := (List.mem_range'_1.mp hp).1
    simp only [resumePage] at this
    omega
  · intro t
    have hcount : K + 1 + t + 1 - resumePage (some K) = t + 1 := by
      simp [resumePage]
      omega
    rw [pageSource, hcount, List.range'_succ]
    rfl

/-- Witness for the checkpoint-resume claim at checkpoint 2, 5 total pages:
page 3 lies in the enumeration and exceeds the checkpoint, and the first
enumerated page is 3. -/
theorem resume_never_fetches_checkpointed_pages_witness :
    (3 : Nat) ∈ pageSource (some 2) 5 ∧ 2 < 3 ∧
    (pageSource (some 2) (2 + 1 + 2)).head? = some 3 ∧
    resumePage none = 1 ∧ initState.page = 1 :=
  ⟨by decide, (resume_never_fetches_checkpointed_pages 2 5).1 3 (by decide),
    (resume_never_fetches_checkpointed_pages 2 5).2.1 2,
    (resume_never_fetches_checkpointed_pages 2 5).2.2.1,
    (resume_never_fetches_checkpointed_pages 2 5).2.2.2⟩

/-- Claim C3: the spec asserts bounded retry (`MAX_RETRIES` attempts, then
PermanentFailure) for non-2xx/non-429 results, and that a run with page 2
permanently answering 500 still completes with pages 1 and 3 written.  The
code violates this: no retry machinery exists; `fetch_page` catches the
error and reports the page as successful with `None` data, after which
`all_data.extend(None)` raises `TypeError` and the whole run aborts on its
very first iteration, writing nothing. -/
theorem page2_http500_aborts_run_with_type_error (fuel : Nat) :
    run endpoint500page2 (fuel + 1) initState = .error .typeError ∧
    fetch_and_save_data endpoint500page2 (fuel + 1) = .error .typeError := by
  have h : loopIter (endpoint500page2 0) initState = .error .typeError := by
    rfl
  have hrun : run endpoint500page2 (fuel + 1) initState
      = .error .typeError := by
    simp [run, h]
  refine ⟨hrun, ?_⟩
  rw [fetch_and_save_data, hrun]
  rfl

set_option maxRecDepth 10000 in
/-- Claim C4: the spec asserts the concurrency level never leaves
`[INITIAL_CONCURRENT_REQUESTS, MAX_CONCURRENT_REQUESTS]` = [10, 200].  The
code violates the upper bound: 21 consecutive batches with every request
successful (as against `endpoint3x2`) drive the concurrency
10, 20, ..., 200, 199, and then 199 < 200 allows one more +10 step, to 209 —
a reachable post-adjustment state above `MAX_CONCURRENT_REQUESTS`. -/
theorem concurrency_exceeds_maximum_after_21_batches :
    crAfter endpoint3x2 21 = some 209 ∧ MAX_CONCURRENT_REQUESTS < 209 :=
  ⟨by rfl, by decide⟩

/-- Claim C5: the spec asserts that when page 2 answers 429 once and then
succeeds, the final output holds all 6 records exactly once, in order.  In
the code the re-fetch itself deduplicates correctly (after two batches the
buffer holds exactly the six records in ascending page order, see `s429_2`),
but the run never produces any output: the six buffered records keep the
buffer non-empty and below `SAVE_BATCH_SIZE` forever, so the loop never
reaches `break` and the file is never written, for every fuel bound. -/
theorem page2_429_once_loop_never_terminates (fuel : Nat) :
    run endpoint429once fuel initState = .ok none ∧
    fetch_and_save_data endpoint429once fuel = .ok none := by
  have hrun : run endpoint429once fuel initState = .ok none := by
    cases fuel with
    | zero => rfl
    | succ n =>
      have h1 : loopIter (endpoint429once 0) initState = .ok (s429_1, true) := by
        rfl
      show run endpoint429once (n + 1) initState = .ok none
      simp only [run, h1, if_true]
      cases n with
      | zero => rfl
      | succ m =>
        have h2 : loopIter ((fun k => endpoint429once (k + 1)) 0) s429_1
            = .ok (s429_2, true) := by rfl
        have henv : EmptyHigh fun k => endpoint429once (k + 2) := by
          intro k p hp
          show (if k + 2 = 0 ∧ p = 2 then _
            else Transport.ok ⟨200, some (pageItems p)⟩) = _
          rw [if_neg (by omega), pageItems, if_neg (by omega)]
        have hstuck : Stuck s429_2 :=
          ⟨by norm_num [s429_2], by simp [s429_2],
            by norm_num [s429_2, SAVE_BATCH_SIZE]⟩
        simp only [run, h2, if_true]
        exact run_stuck m _ henv _ hstuck
  refine ⟨hrun, ?_⟩
  rw [fetch_and_save_data, hrun]
  rfl

/-- Claim C6: a request answered HTTP 429 is not treated as a terminal
failure — `fetch_page` returns `(page, None, False)` immediately, without
retrying in place, and when the orchestrator's task walk meets that
unsuccessful flag it stops without touching the buffer or advancing `page`,
so the page is re-requested in the next batch after the rate-limit
adjustment. -/
theorem http429_returns_rate_limited_immediately (p : Nat)
    (items : Option (List Record)) :
    fetch_page p (.ok ⟨429, items⟩) = (p, none, false) ∧
    ∀ (rest : List (Nat × Option (List Record) × Bool)) (d : List Record)
      (pg : Nat),
      processTasks ((p, none, false) :: rest) d pg = .ok (d, pg, true) :=
  ⟨rfl, fun _ _ _ => rfl⟩

/-- Claim C7: in the rate-limit branch the code's
`request_delay = min(rate_limit_interval / total_requests,
RATE_LIMIT_WINDOW_SEC / total_requests)` equals the spec's
`min(1 / targetRps, windowLength / totalRequestsInWindow)` with
`targetRps = totalRequestsInWindow / windowLength`, for every positive
request count and both window lengths the code can hold (60 and 180). -/
theorem rate_limit_delay_matches_spec_formula
    (total rate_limit_interval : Nat) (htotal : 0 < total)
    (hint : rate_limit_interval = 60 ∨ rate_limit_interval = 180) :
    request_delay_code rate_limit_interval total
      = delay_spec rate_limit_interval total := by
  have ht : (0 : ℚ) < (total : ℚ) := by exact_mod_cast htotal
  have h180 : (rate_limit_interval : ℚ)
      ≤ ((RATE_LIMIT_WINDOW_SEC : Nat) : ℚ) := by
    rcases hint with h | h <;> rw [h] <;> norm_num [RATE_LIMIT_WINDOW_SEC]
  rw [request_delay_code, delay_spec, one_div_div, min_self]
  exact min_eq_left (by gcongr)

/-- Witness for the delay-formula claim at 10 requests in a 60-second
window. -/
theorem rate_limit_delay_matches_spec_formula_witness :
    0 < 10 ∧ request_delay_code 60 10 = delay_spec 60 10 :=
  ⟨by decide, rate_limit_delay_matches_spec_formula 10 60 (by decide)
    (Or.inl rfl)⟩

/-- Claim C8 counterexample: the claim that the window counters are reset
after every adjustment decision is false — after the first (fully
successful, no-429) batch against `endpoint3x2`, the adjustment taken is
the all-succeeded increase and `total_requests` is 10, not 0. -/
theorem window_counters_not_reset_after_success_adjustment :
    totalAfter endpoint3x2 1 = some 10 ∧ totalAfter endpoint3x2 1 ≠ some 0 :=
  ⟨by rfl, by decide⟩

/-- Claim C8 amended: the window counters (`total_requests`,
`successful_requests`) are reset only by the rate-limit branch; after the
all-succeeded-increase or decrease branch they instead carry over, grown by
this batch's request and success counts. -/
theorem window_counters_reset_only_in_rate_limit_branch
    (envk : Nat → Transport) (s : LoopState) (d : List Record) (pg : Nat)
    (rl : Bool) (s' : LoopState) (more : Bool)
    (hproc : processTasks (tasksOf envk s) s.all_data s.page = .ok (d, pg, rl))
    (hiter : loopIter envk s = .ok (s', more)) :
    (rl = true → s'.total_requests = 0 ∧ s'.successful_requests = 0) ∧
    (rl = false →
      s'.total_requests = s.total_requests + (tasksOf envk s).length ∧
      s'.successful_requests = s.successful_requests +
        ((tasksOf envk s).filter fun t => t.2.2).length) := by
  simp only [loopIter, hproc] at hiter
  cases rl with
  | true =>
    refine ⟨fun _ => ?_, (fun h => by cases h)⟩
    simp only [if_true] at hiter
    split at hiter <;>
      · rw [Except.ok.injEq, Prod.mk.injEq] at hiter
        obtain ⟨h1, _⟩ := hiter
        subst h1
        simp
  | false =>
    refine ⟨(fun h => by cases h), fun _ => ?_⟩
    simp only [Bool.false_eq_true, if_false] at hiter
    split at hiter <;>
      · rw [Except.ok.injEq, Prod.mk.injEq] at hiter
        obtain ⟨h1, _⟩ := hiter
        subst h1
        simp

/-- Witness for the amended counter-reset claim: the first batch against
`endpoint3x2` takes the no-rate-limit branch with 10 requests, all
successful, and the counters carry over accordingly. -/
theorem window_counters_reset_only_in_rate_limit_branch_witness :
    s3x2_1.total_requests = initState.total_requests
        + (tasksOf (endpoint3x2 0) initState).length ∧
    s3x2_1.successful_requests = initState.successful_requests
        + ((tasksOf (endpoint3x2 0) initState).filter fun t => t.2.2).length :=
  (window_counters_reset_only_in_rate_limit_branch (endpoint3x2 0) initState
    [11, 12, 21, 22, 31, 32] 11 false s3x2_1 true (by rfl) (by rfl)).2 rfl

/-- Claim C9: the writer flushes exactly when the buffer holds at least
`SAVE_BATCH_SIZE` records, clearing it afterwards; at stream end any
remainder below the threshold is flushed; and over any terminating run the
header row is emitted at the very start of the first write and never
again. -/
theorem batch_writer_flush_and_header_behaviour :
    (∀ (d : List Record) (h : Bool) (o : List Row),
      SAVE_BATCH_SIZE ≤ d.length →
      flushIfNeeded d h o = ([], true, o ++ writeRows h d)) ∧
    (∀ (d : List Record) (h : Bool) (o : List Row),
      d.length < SAVE_BATCH_SIZE → flushIfNeeded d h o = (d, h, o)) ∧
    (∀ s : LoopState, s.all_data ≠ [] →
      finalFlush s = s.output ++ writeRows s.header_written s.all_data) ∧
    (∀ s : LoopState, s.all_data = [] → finalFlush s = s.output) ∧
    (∀ (env : Nat → Nat → Transport) (fuel : Nat) (s : LoopState),
      run env fuel initState = .ok (some s) →
      finalFlush s = [] ∨
        ∃ tl, finalFlush s = Row.header :: tl ∧ Row.header ∉ tl) := by
  refine ⟨?_, ?_, ?_, ?_, ?_⟩
  · intro d h o hd
    rw [flushIfNeeded, if_pos hd]
  · intro d h o hd
    rw [flushIfNeeded, if_neg (not_le.mpr hd)]
  · intro s hs
    rw [finalFlush, if_neg hs]
  · intro s hs
    rw [finalFlush, if_pos hs]
  · intro env fuel s hrun
    exact finalFlush_headerOnce s
      (run_writerInv fuel env initState s (Or.inl ⟨rfl, rfl⟩) hrun)

/-- Witness for the writer claim: a full buffer flushes with a header, a
short buffer does not flush, the remainder of `s3x2_1` is flushed at stream
end, an empty remainder writes nothing, and the terminating run against
`endpointEmpty` ends with a header-once output. -/
theorem batch_writer_flush_and_header_behaviour_witness :
    flushIfNeeded (List.replicate SAVE_BATCH_SIZE (0 : Record)) false []
      = ([], true, [] ++ writeRows false (List.replicate SAVE_BATCH_SIZE 0)) ∧
    flushIfNeeded [1] false [] = ([1], false, []) ∧
    finalFlush s3x2_1 = s3x2_1.output
      ++ writeRows s3x2_1.header_written s3x2_1.all_data ∧
    finalFlush initState = initState.output ∧
    (finalFlush sEmptyEnd = [] ∨
      ∃ tl, finalFlush sEmptyEnd = Row.header :: tl ∧ Row.header ∉ tl) :=
  ⟨batch_writer_flush_and_header_behaviour.1 _ _ _ (by simp),
    batch_writer_flush_and_header_behaviour.2.1 _ _ _
      (by norm_num [SAVE_BATCH_SIZE]),
    batch_writer_flush_and_header_behaviour.2.2.1 s3x2_1 (by simp [s3x2_1]),
    batch_writer_flush_and_header_behaviour.2.2.2.1 initState rfl,
    batch_writer_flush_and_header_behaviour.2.2.2.2 endpointEmpty 1 sEmptyEnd
      (by rfl)⟩

/-- Claim C10: there are inputs — here, page 1 answering HTTP 500, and a
page whose fetch raises — on which `fetch_page` returns `(page, None, True)`
with the success flag set, after which the orchestrator executes
`all_data.extend(None)` and the resulting `TypeError` aborts the entire run
instead of skipping or retrying the page. -/
theorem failed_fetch_flagged_successful_aborts_run :
    fetch_page 1 (.ok ⟨500, none⟩) = (1, none, true) ∧
    fetch_page 7 .err = (7, none, true) ∧
    ∀ fuel : Nat,
      run endpoint500page1 (fuel + 1) initState = .error .typeError ∧
      fetch_and_save_data endpoint500page1 (fuel + 1) = .error .typeError := by
  refine ⟨rfl, rfl, fun fuel => ?_⟩
  have h : loopIter (endpoint500page1 0) initState = .error .typeError := by
    rfl
  have hrun : run endpoint500page1 (fuel + 1) initState
      = .error .typeError := by
    simp [run, h]
  refine ⟨hrun, ?_⟩
  rw [fetch_and_save_data, hrun]
  rfl

end CustomsDataFetcher
